import Mathlib

/-!
Shallow embedding of the origin-validation / fetch pipeline of the
dynamic-image-transformation service:

* `origin-fetcher.ts` — the `OriginFetcher` body fetcher (`fetchImage`,
  `fetchFromHttp`, `detectedFormat`, `isValidImageContentType`,
  `validateImageMagicNumbers`, `handleFetchError`);
* `connection-manager.ts` — the `ConnectionManager` preflight probe
  (`validateContentType`, `validateS3Origin`, `validateHttpOrigin`,
  `validateOriginHeaders`, `validateOriginUrl`).

Modelling conventions: JavaScript strings are `List Char` (so every
operation is structurally recursive and kernel-evaluable); byte buffers
are `List Nat` with byte values below 256 (the hex encoder reduces mod
256 explicitly); `undefined`/`null` string values are `Option`; throwing
code returns `Except`; external collaborators (the URL validator, the S3
URL classifier/parser, the network clients, the S3 error translator) are
parameters of the functions that call them.  The JS string methods
(`toLowerCase`, `trim`, `startsWith`, `includes`, `split`, `replace`)
are modelled on their ASCII behaviour, which covers every literal the
source compares against.
-/

deriving instance DecidableEq for Except

/-- JavaScript strings, modelled as their character sequences. -/
abbrev JsString := List Char

/-- Character list of a Lean string literal. -/
def jsStr (s : String) : JsString := s.data

/-- JS `String.prototype.startsWith`. -/
def jsStartsWith (s pre : JsString) : Bool :=
  pre.isPrefixOf s

/-- ASCII case folding of one character, as JS `toLowerCase` acts on ASCII. -/
def jsToLowerChar (c : Char) : Char :=
  if 65 ≤ c.toNat ∧ c.toNat ≤ 90 then Char.ofNat (c.toNat + 32) else c

/-- JS `String.prototype.toLowerCase` (ASCII fragment). -/
def jsToLower (s : JsString) : JsString := s.map jsToLowerChar

/-- ASCII upper-casing of one character, as JS `toUpperCase` acts on ASCII. -/
def jsToUpperChar (c : Char) : Char :=
  if 97 ≤ c.toNat ∧ c.toNat ≤ 122 then Char.ofNat (c.toNat - 32) else c

/-- JS `String.prototype.toUpperCase` (ASCII fragment). -/
def jsToUpper (s : JsString) : JsString := s.map jsToUpperChar

/-- JS `s.split(sep)[0]`: the part of `s` before the first occurrence of
the separator character (the whole string when the separator is absent). -/
def jsSplitHead (sep : Char) : JsString → JsString
  | [] => []
  | c :: rest => if c = sep then [] else c :: jsSplitHead sep rest

/-- ASCII whitespace recognised by JS `trim`. -/
def jsIsSpace (c : Char) : Bool :=
  c = ' ' ∨ c = '\t' ∨ c = '\n' ∨ c = '\r' ∨ c.toNat = 11 ∨ c.toNat = 12

/-- JS `String.prototype.trim` (ASCII whitespace). -/
def jsTrim (s : JsString) : JsString :=
  ((s.dropWhile jsIsSpace).reverse.dropWhile jsIsSpace).reverse

/-- JS `s.includes(pat)`: `jsIncludes pat s` is true when `pat` occurs
somewhere in `s`. -/
def jsIncludes (pat : JsString) : JsString → Bool
  | [] => pat.isEmpty
  | c :: rest => pat.isPrefixOf (c :: rest) || jsIncludes pat rest

/-- JS `s.replace(pat, empty)`: removes the first occurrence of the
(non-empty) pattern, leaving the string unchanged when it is absent. -/
def removeFirst (pat : JsString) : JsString → JsString
  | [] => []
  | c :: rest =>
    if pat.isPrefixOf (c :: rest) then List.drop pat.length (c :: rest)
    else c :: removeFirst pat rest

/-- Lower-case hex digit, as `Buffer.toString` with hex encoding emits. -/
def hexDigit (n : Nat) : Char :=
  if n < 10 then Char.ofNat (48 + n) else Char.ofNat (87 + n)

/-- Two lower-case hex digits of one byte. -/
def byteToHex (b : Nat) : JsString :=
  [hexDigit (b % 256 / 16), hexDigit (b % 16)]

/-- Hex string of `buffer.subarray(0, 4).toString(hex).toUpperCase()`,
the file header the fetcher compares signatures against. -/
def fileHeaderOf (buffer : List Nat) : JsString :=
  jsToUpper ((buffer.take 4).flatMap byteToHex)

/-- Error thrown by the fetcher:
`ImageProcessingError(statusCode, errorType, message)`. -/
structure ImageProcessingError where
  statusCode : Nat
  errorType : JsString
  message : JsString
  deriving DecidableEq, Repr

/-- Ordered signature registry `magicToFormat` of `origin-fetcher.ts`
(duplicated there in `detectedFormat` and `validateImageMagicNumbers`;
`Object.entries` yields exactly this insertion order). -/
def magicToFormat : List (JsString × JsString) :=
  [(jsStr "FFD8FF", jsStr "jpeg"),
   (jsStr "89504E47", jsStr "png"),
   (jsStr "47494638", jsStr "gif"),
   (jsStr "52494646", jsStr "webp"),
   (jsStr "49492A00", jsStr "tiff"),
   (jsStr "4D4D002A", jsStr "tiff")]

/-- The `for … of Object.entries(magicToFormat)` loop with `break` on the
first entry whose magic prefix matches the file header. -/
def scanMagic : List (JsString × JsString) → JsString → Option JsString
  | [], _ => none
  | (magic, format) :: rest, fileHeader =>
    if jsStartsWith fileHeader magic then some format else scanMagic rest fileHeader

/-- `OriginFetcher.detectedFormat`: rejects buffers shorter than 4 bytes,
otherwise scans the signature registry against the 4-byte header. -/
def detectedFormat (buffer : List Nat) : Except ImageProcessingError (Option JsString) :=
  if buffer.length < 4 then
    .error ⟨415, jsStr "InvalidImage", jsStr "File too small to be a valid image"⟩
  else
    .ok (scanMagic magicToFormat (fileHeaderOf buffer))

/-- The `contentTypeToFormat` lookup table of `validateImageMagicNumbers`
(own keys of the JS object literal; prototype-chain keys are not part of
the table). -/
def contentTypeToFormat (ct : JsString) : Option JsString :=
  if ct = jsStr "image/webp" then some (jsStr "webp")
  else if ct = jsStr "image/png" then some (jsStr "png")
  else if ct = jsStr "image/jpeg" then some (jsStr "jpeg")
  else if ct = jsStr "image/jpg" then some (jsStr "jpeg")
  else if ct = jsStr "image/tiff" then some (jsStr "tiff")
  else if ct = jsStr "image/gif" then some (jsStr "gif")
  else none

/-- `OriginFetcher.validateImageMagicNumbers`: size floor, signature scan,
then the cross-validation of declared content type against the detected
signature (a detected signature is accepted even when it differs from the
expected format — the mismatch branch is commented out in the source). -/
def validateImageMagicNumbers (buffer : List Nat) (contentType : Option JsString) :
    Except ImageProcessingError Unit :=
  if buffer.length < 4 then
    .error ⟨415, jsStr "InvalidImage", jsStr "File too small to be a valid image"⟩
  else
    match contentType with
    | none => .ok ()
    | some ct =>
      match contentTypeToFormat (jsToLower ct) with
      | none => .ok ()
      | some expectedFormat =>
        match scanMagic magicToFormat (fileHeaderOf buffer) with
        | none => .error ⟨415, jsStr "InvalidImage",
            jsStr "Invalid or corrupted " ++ expectedFormat ++ jsStr " file"⟩
        | some _ => .ok ()

theorem scanMagic_eq_find (l : List (JsString × JsString)) (h : JsString) :
    scanMagic l h = (l.find? (fun p => jsStartsWith h p.1)).map Prod.snd := by
  induction l with
  | nil => rfl
  | cons p rest ih =>
    obtain ⟨magic, format⟩ := p
    by_cases hp : jsStartsWith h magic
    · simp [scanMagic, hp, List.find?]
    · simp only [scanMagic, hp, if_false, Bool.false_eq_true, ite_false, ih]
      simp [List.find?, hp]

/-- Claim C1: for every buffer of length at least 4 and declared content
type, when the lower-cased content type maps to an expected format and no
signature matches the 4-byte header, `validateImageMagicNumbers` fails
with status 415, kind `InvalidImage` and the corrupted-file message; when
a signature is detected it succeeds regardless of the expected format. -/
theorem C1_cross_validation (buffer : List Nat) (ct : JsString)
    (h4 : 4 ≤ buffer.length) :
    (∀ expectedFormat, contentTypeToFormat (jsToLower ct) = some expectedFormat →
        scanMagic magicToFormat (fileHeaderOf buffer) = none →
        validateImageMagicNumbers buffer (some ct) =
          .error ⟨415, jsStr "InvalidImage",
            jsStr "Invalid or corrupted " ++ expectedFormat ++ jsStr " file"⟩) ∧
    (∀ f, scanMagic magicToFormat (fileHeaderOf buffer) = some f →
        validateImageMagicNumbers buffer (some ct) = .ok ()) := by
  constructor
  · intro expectedFormat hmap hnone
    simp only [validateImageMagicNumbers]
    rw [if_neg (by omega)]
    simp [hmap, hnone]
  · intro f hf
    simp only [validateImageMagicNumbers]
    rw [if_neg (by omega)]
    cases hmap : contentTypeToFormat (jsToLower ct) <;> simp [hmap, hf]

/-- Claim C1 witness: real PNG bytes declared as `image/jpeg` pass
(mismatch tolerated); a signature-less buffer declared as `image/png`
fails with the corrupted-png message. -/
theorem C1_cross_validation_witness :
    validateImageMagicNumbers [137, 80, 78, 71] (some (jsStr "image/jpeg")) = .ok () ∧
    validateImageMagicNumbers [0, 1, 2, 3] (some (jsStr "image/png")) =
      .error ⟨415, jsStr "InvalidImage",
        jsStr "Invalid or corrupted " ++ jsStr "png" ++ jsStr " file"⟩ :=
  ⟨(C1_cross_validation [137, 80, 78, 71] (jsStr "image/jpeg") (by decide)).2
      (jsStr "png") (by decide),
   (C1_cross_validation [0, 1, 2, 3] (jsStr "image/png") (by decide)).1
      (jsStr "png") (by decide) (by decide)⟩

/-- Claim C3: every buffer shorter than 4 bytes makes both signature
detection and `validateImageMagicNumbers` fail with status 415, kind
`InvalidImage` and the too-small message, for every declared content type
(present or absent). -/
theorem C3_too_small (buffer : List Nat) (contentType : Option JsString)
    (h : buffer.length < 4) :
    detectedFormat buffer =
      .error ⟨415, jsStr "InvalidImage", jsStr "File too small to be a valid image"⟩ ∧
    validateImageMagicNumbers buffer contentType =
      .error ⟨415, jsStr "InvalidImage", jsStr "File too small to be a valid image"⟩ := by
  constructor
  · simp [detectedFormat, h]
  · simp [validateImageMagicNumbers, h]

/-- Claim C3 witness: a 2-byte buffer with no declared content type hits
the too-small error in both functions. -/
theorem C3_too_small_witness :
    detectedFormat [255, 216] =
      .error ⟨415, jsStr "InvalidImage", jsStr "File too small to be a valid image"⟩ ∧
    validateImageMagicNumbers [255, 216] none =
      .error ⟨415, jsStr "InvalidImage", jsStr "File too small to be a valid image"⟩ :=
  C3_too_small [255, 216] none (by decide)

/-- Claim C4: for buffers of length at least 4, signature detection never
fails and returns exactly the format paired with the first registry prefix
matching the upper-case hex of the first 4 bytes; the registry is the
ordered list FFD8FF→jpeg, 89504E47→png, 47494638→gif, 52494646→webp,
49492A00→tiff, 4D4D002A→tiff, and no match yields `none` rather than an
error. -/
theorem C4_signature_scan (buffer : List Nat) (h4 : 4 ≤ buffer.length) :
    detectedFormat buffer =
      .ok ((magicToFormat.find? (fun p => jsStartsWith (fileHeaderOf buffer) p.1)).map
        Prod.snd) ∧
    magicToFormat =
      [(jsStr "FFD8FF", jsStr "jpeg"), (jsStr "89504E47", jsStr "png"),
       (jsStr "47494638", jsStr "gif"), (jsStr "52494646", jsStr "webp"),
       (jsStr "49492A00", jsStr "tiff"), (jsStr "4D4D002A", jsStr "tiff")] := by
  constructor
  · simp only [detectedFormat]
    rw [if_neg (by omega), scanMagic_eq_find]
  · rfl

/-- Claim C4 witness: the second tiff signature 4D4D002A is detected as
tiff, and the find-based characterisation evaluates to the same answer. -/
theorem C4_signature_scan_witness :
    detectedFormat [77, 77, 0, 42] =
      .ok ((magicToFormat.find?
        (fun p => jsStartsWith (fileHeaderOf [77, 77, 0, 42]) p.1)).map Prod.snd) ∧
    detectedFormat [77, 77, 0, 42] = .ok (some (jsStr "tiff")) :=
  ⟨(C4_signature_scan [77, 77, 0, 42] (by decide)).1, by decide⟩

/-- Body and declared content type an inner fetch (`fetchFromS3` /
`fetchFromHttp`) resolves to. -/
structure FetchOk where
  buffer : List Nat
  contentType : Option JsString
  deriving DecidableEq, Repr

/-- The `metadata` record `fetchImage` returns. -/
structure FetchMetadata where
  size : Nat
  format : Option JsString
  deriving DecidableEq, Repr

/-- The `{ buffer, metadata }` result of `fetchImage`. -/
structure FetchResult where
  buffer : List Nat
  metadata : FetchMetadata
  deriving DecidableEq, Repr

/-- External collaborators of `OriginFetcher.fetchImage`: the S3 URL
classifier (`S3UrlHelper.isS3Url`), the URL validator
(`UrlValidator.validate`, failing with a message), and the two network
fetch paths viewed as oracles from the URL to their outcome. -/
structure FetchEnv where
  isS3Url : JsString → Bool
  urlValidate : JsString → Except JsString Unit
  fetchFromS3 : JsString → Except ImageProcessingError FetchOk
  fetchFromHttp : JsString → Except ImageProcessingError FetchOk

/-- Lines 40–62 of `fetchImage`: magic-number validation, signature
re-detection, and derivation of `{ size, format }` (signature format
preferred, otherwise the declared content type with the first occurrence
of `image/` removed). -/
def finishFetch (result : FetchOk) : Except ImageProcessingError FetchResult :=
  match validateImageMagicNumbers result.buffer result.contentType with
  | .error e => .error e
  | .ok () =>
    match detectedFormat result.buffer with
    | .error e => .error e
    | .ok df =>
      .ok ⟨result.buffer,
        ⟨result.buffer.length,
          match df with
          | some f => some f
          | none => result.contentType.map (removeFirst (jsStr "image/"))⟩⟩

/-- `OriginFetcher.fetchImage`: route S3 URLs to the S3 path, `http://` /
`https://` URLs through the URL validator to the HTTP path, reject every
other scheme, then validate and package the body. -/
def fetchImage (env : FetchEnv) (url : JsString) :
    Except ImageProcessingError FetchResult :=
  match
    (if env.isS3Url url then env.fetchFromS3 url
     else if jsStartsWith url (jsStr "http://") || jsStartsWith url (jsStr "https://") then
       match env.urlValidate url with
       | .error msg => .error ⟨400, jsStr "InvalidUrl", msg⟩
       | .ok () => env.fetchFromHttp url
     else .error ⟨400, jsStr "InvalidUrl", jsStr "Unsupported URL protocol"⟩)
  with
  | .error e => .error e
  | .ok result => finishFetch result

/-- Claim C5: a URL the S3 classifier rejects and that starts with neither
`http://` nor `https://` makes `fetchImage` fail with status 400, kind
`InvalidUrl`, message `Unsupported URL protocol` — for every fetch oracle,
so no fetch result is consulted. -/
theorem C5_unsupported_protocol (env : FetchEnv) (url : JsString)
    (hS3 : env.isS3Url url = false)
    (hhttp : jsStartsWith url (jsStr "http://") = false)
    (hhttps : jsStartsWith url (jsStr "https://") = false) :
    fetchImage env url =
      .error ⟨400, jsStr "InvalidUrl", jsStr "Unsupported URL protocol"⟩ := by
  simp [fetchImage, hS3, hhttp, hhttps]

/-- Environment whose oracles all succeed, used to witness that the
protocol rejection ignores them. -/
def envC5 : FetchEnv :=
  { isS3Url := fun _ => false
    urlValidate := fun _ => .ok ()
    fetchFromS3 := fun _ => .ok ⟨[255, 216, 255, 224], some (jsStr "image/jpeg")⟩
    fetchFromHttp := fun _ => .ok ⟨[255, 216, 255, 224], some (jsStr "image/jpeg")⟩ }

/-- Claim C5 witness: an `ftp://` URL is rejected as an unsupported
protocol even though every oracle of the environment would succeed. -/
theorem C5_unsupported_protocol_witness :
    fetchImage envC5 (jsStr "ftp://example.com/image.jpg") =
      .error ⟨400, jsStr "InvalidUrl", jsStr "Unsupported URL protocol"⟩ :=
  C5_unsupported_protocol envC5 (jsStr "ftp://example.com/image.jpg")
    rfl (by decide) (by decide)

theorem finishFetch_ok (result : FetchOk) (res : FetchResult)
    (h : finishFetch result = .ok res) :
    res.buffer = result.buffer ∧ res.metadata.size = result.buffer.length ∧
    ((∃ f, detectedFormat result.buffer = .ok (some f) ∧ res.metadata.format = some f) ∨
     (detectedFormat result.buffer = .ok none ∧
       res.metadata.format = result.contentType.map (removeFirst (jsStr "image/")))) := by
  unfold finishFetch at h
  cases hv : validateImageMagicNumbers result.buffer result.contentType with
  | error e => rw [hv] at h; exact absurd h (by simp)
  | ok u =>
    cases u
    rw [hv] at h
    cases hd : detectedFormat result.buffer with
    | error e => rw [hd] at h; exact absurd h (by simp)
    | ok df =>
      rw [hd] at h
      cases df with
      | none =>
        simp only [Except.ok.injEq] at h
        subst h
        exact ⟨rfl, rfl, Or.inr ⟨rfl, rfl⟩⟩
      | some f =>
        simp only [Except.ok.injEq] at h
        subst h
        exact ⟨rfl, rfl, Or.inl ⟨f, rfl, rfl⟩⟩

/-- Claim C6: every successful `fetchImage` result comes from an inner
fetch result whose body it returns verbatim, with `size` the byte length
of the body and `format` the detected signature format when one matched,
otherwise the declared content type with `image/` stripped (absent when
the content type is also absent, via `Option.map`). -/
theorem C6_metadata_format (env : FetchEnv) (url : JsString) (res : FetchResult)
    (h : fetchImage env url = .ok res) :
    ∃ result : FetchOk, finishFetch result = .ok res ∧
      res.buffer = result.buffer ∧
      res.metadata.size = res.buffer.length ∧
      ((∃ f, detectedFormat result.buffer = .ok (some f) ∧ res.metadata.format = some f) ∨
       (detectedFormat result.buffer = .ok none ∧
         res.metadata.format = result.contentType.map (removeFirst (jsStr "image/")))) := by
  unfold fetchImage at h
  cases hr :
      (if env.isS3Url url then env.fetchFromS3 url
       else if jsStartsWith url (jsStr "http://") || jsStartsWith url (jsStr "https://") then
         match env.urlValidate url with
         | .error msg => .error ⟨400, jsStr "InvalidUrl", msg⟩
         | .ok () => env.fetchFromHttp url
       else .error ⟨400, jsStr "InvalidUrl", jsStr "Unsupported URL protocol"⟩) with
  | error e => rw [hr] at h; exact absurd h (by simp)
  | ok result =>
    rw [hr] at h
    obtain ⟨hbuf, hsize, hfmt⟩ := finishFetch_ok result res h
    exact ⟨result, h, hbuf, by rw [hbuf]; exact hsize, hfmt⟩

/-- Environment for the C6 witness: an S3 fetch returning JPEG bytes
declared as `image/jpeg`, matching the end-to-end example of the spec. -/
def envC6 : FetchEnv :=
  { isS3Url := fun _ => true
    urlValidate := fun _ => .ok ()
    fetchFromS3 := fun _ => .ok ⟨[255, 216, 255, 224], some (jsStr "image/jpeg")⟩
    fetchFromHttp := fun _ => .ok ⟨[255, 216, 255, 224], some (jsStr "image/jpeg")⟩ }

/-- The concrete `{ buffer, metadata: { size: 4, format: jpeg } }` result
of the C6 witness fetch. -/
def resC6 : FetchResult := ⟨[255, 216, 255, 224], ⟨4, some (jsStr "jpeg")⟩⟩

/-- Claim C6 witness: fetching the S3 example URL yields size 4 and
format jpeg, and the metadata characterisation holds at that result. -/
theorem C6_metadata_format_witness :
    fetchImage envC6 (jsStr "https://bucket.s3.amazonaws.com/key") = .ok resC6 ∧
    ∃ result : FetchOk, finishFetch result = .ok resC6 ∧
      resC6.buffer = result.buffer ∧
      resC6.metadata.size = resC6.buffer.length ∧
      ((∃ f, detectedFormat result.buffer = .ok (some f) ∧
          resC6.metadata.format = some f) ∨
       (detectedFormat result.buffer = .ok none ∧
         resC6.metadata.format = result.contentType.map (removeFirst (jsStr "image/")))) :=
  ⟨by decide,
   C6_metadata_format envC6 (jsStr "https://bucket.s3.amazonaws.com/key") resC6 (by decide)⟩

/-- The `validTypes` allowlist of `isValidImageContentType`. -/
def validTypes : List JsString :=
  [jsStr "image/jpeg", jsStr "image/jpg", jsStr "image/png", jsStr "image/webp",
   jsStr "image/gif", jsStr "image/tiff", jsStr "image/avif", jsStr "image/heif"]

/-- `OriginFetcher.isValidImageContentType`: some allowlisted type occurs
inside the lower-cased content type. -/
def isValidImageContentType (contentType : JsString) : Bool :=
  validTypes.any (fun t => jsIncludes t (jsToLower contentType))

/-- Values thrown inside the body-processing section of `fetchFromHttp`:
either an `ImageProcessingError` or the JavaScript `TypeError` raised by
dereferencing a `null` content type on line 140. -/
inductive JsError where
  | ipe (e : ImageProcessingError)
  | typeError (message : JsString)
  deriving DecidableEq, Repr

/-- Result of the external S3 error translator
(`S3ErrorHandler.mapError`), when it recognises the error. -/
structure MappedError where
  statusCode : Nat
  errorType : JsString
  message : JsString
  deriving DecidableEq, Repr

/-- Message of a thrown value (`error.message`). -/
def jsErrorMessage : JsError → JsString
  | .ipe e => e.message
  | .typeError m => m

/-- `OriginFetcher.handleFetchError`: pass `ImageProcessingError` through;
otherwise consult the external translator (remapping its KeyNotFound kind
to ImageNotFound) and fall back to a 500 FetchError embedding the
underlying message. -/
def handleFetchError (mapError : JsError → Option MappedError) (url : JsString)
    (error : JsError) : ImageProcessingError :=
  match error with
  | .ipe e => e
  | e =>
    match mapError e with
    | some m =>
      ⟨m.statusCode,
        if m.errorType = jsStr "KeyNotFound" then jsStr "ImageNotFound" else m.errorType,
        m.message⟩
    | none =>
      ⟨500, jsStr "FetchError",
        jsStr "Failed to fetch image from " ++ url ++ jsStr ": " ++ jsErrorMessage e⟩

/-- Lines 139–146 of `fetchFromHttp`: signature detection on the drained
body, then the line-140 comparison `contentType.toLowerCase().trim() ===
binary/octet-stream`, which dereferences a `null` content type. -/
def fetchFromHttpRest (contentType : Option JsString) (buffer : List Nat) :
    Except JsError FetchOk :=
  match detectedFormat buffer with
  | .error e => .error (.ipe e)
  | .ok df =>
    match contentType with
    | none => .error (.typeError (jsStr "Cannot read properties of null"))
    | some ct =>
      if jsTrim (jsToLower ct) = jsStr "binary/octet-stream" then
        if df = none then
          .error (.ipe ⟨415, jsStr "InvalidImage",
            jsStr "Invalid or corrupted Content-Type " ++ ct ++ jsStr " file"⟩)
        else .ok ⟨buffer, some ct⟩
      else .ok ⟨buffer, some ct⟩

/-- Lines 127–146 of `fetchFromHttp`: the guarded line-128 content-type
allowlist check (skipped when the header is absent), then the rest of the
body processing. -/
def fetchFromHttpBody (contentType : Option JsString) (buffer : List Nat) :
    Except JsError FetchOk :=
  match contentType with
  | some ct =>
    if jsTrim (jsToLower ct) ≠ jsStr "binary/octet-stream" ∧
        isValidImageContentType ct = false then
      .error (.ipe ⟨415, jsStr "InvalidContentType", jsStr "Invalid content type: " ++ ct⟩)
    else fetchFromHttpRest contentType buffer
  | none => fetchFromHttpRest contentType buffer

/-- The `catch` of `fetchFromHttp` around the body-processing section:
every thrown value reaches the caller through `handleFetchError` (the
AbortError branch concerns only the fetch call itself, which cannot abort
once the 2xx response is in hand). -/
def fetchFromHttp (mapError : JsError → Option MappedError) (url : JsString)
    (contentType : Option JsString) (buffer : List Nat) :
    Except ImageProcessingError FetchOk :=
  match fetchFromHttpBody contentType buffer with
  | .ok r => .ok r
  | .error e => .error (handleFetchError mapError url e)

/-- Claim C9 counterexample: a 2xx response with no content-type header
and an empty body fails with the 415 too-small error from line 139, not
with the 500 FetchError the claim asserts for every such response — the
signature floor check runs before the null content type is dereferenced. -/
theorem C9_too_small_counterexample :
    fetchFromHttp (fun _ => none) (jsStr "https://example.com/image") none [] =
      .error ⟨415, jsStr "InvalidImage", jsStr "File too small to be a valid image"⟩ ∧
    (415 : Nat) ≠ 500 := by
  constructor
  · decide
  · decide

/-- Claim C9 as amended: for a 2xx response with no content-type header
and a body of at least 4 bytes, `fetchFromHttp` never returns the body:
the null content type is dereferenced on line 140 and, provided the
external S3 error translator does not recognise the resulting TypeError,
the caller receives a status 500 FetchError (bodies under 4 bytes instead
fail earlier with the 415 too-small error, as the counterexample shows). -/
theorem C9_null_content_type (mapError : JsError → Option MappedError)
    (url : JsString) (buffer : List Nat) (h4 : 4 ≤ buffer.length)
    (hmap : ∀ m, mapError (.typeError m) = none) :
    ∃ m, fetchFromHttp mapError url none buffer =
      .error ⟨500, jsStr "FetchError",
        jsStr "Failed to fetch image from " ++ url ++ jsStr ": " ++ m⟩ := by
  refine ⟨jsStr "Cannot read properties of null", ?_⟩
  simp only [fetchFromHttp, fetchFromHttpBody, fetchFromHttpRest, detectedFormat]
  rw [if_neg (by omega)]
  simp [handleFetchError, hmap, jsErrorMessage]

/-- Claim C9 witness: with the translator rejecting everything, a 4-byte
body and an absent content type surface as a 500 FetchError. -/
theorem C9_null_content_type_witness :
    ∃ m, fetchFromHttp (fun _ => none) (jsStr "https://example.com/image") none
        [0, 1, 2, 3] =
      .error ⟨500, jsStr "FetchError",
        jsStr "Failed to fetch image from " ++ jsStr "https://example.com/image" ++
          jsStr ": " ++ m⟩ :=
  C9_null_content_type (fun _ => none) (jsStr "https://example.com/image")
    [0, 1, 2, 3] (by decide) (fun _ => rfl)

/-- Error thrown by the probe:
`ConnectionError(title, detail, status, code)` (class body outside the
core; field names follow the four constructor arguments). -/
structure ConnectionError where
  title : JsString
  detail : JsString
  status : Nat
  code : JsString
  deriving DecidableEq, Repr

/-- The `split(;)[0].trim()` normalisation both acceptance branches of
`validateContentType` apply. -/
def mainContentType (s : JsString) : JsString := jsTrim (jsSplitHead ';' s)

/-- Rendering of an optional string inside a JS template literal
(`undefined` when absent). -/
def ctOrUndefined : Option JsString → JsString
  | none => jsStr "undefined"
  | some s => s

/-- `ConnectionManager.validateContentType`: reject (400 INVALID_FORMAT)
unless the normalised value starts with `image/` or starts with
`binary/octet-stream`; an absent header makes both optional-chained
conditions undefined, hence falsy, hence a rejection. -/
def validateContentType (contentType : Option JsString) : Except ConnectionError Unit :=
  if !(match contentType with
       | none => false
       | some s => jsStartsWith (mainContentType s) (jsStr "image/")) &&
     !(match contentType with
       | none => false
       | some s => jsStartsWith (mainContentType s) (jsStr "binary/octet-stream")) then
    .error ⟨jsStr "Invalid content type",
      jsStr "Origin does not serve image content. Content-Type: " ++
        ctOrUndefined contentType,
      400, jsStr "INVALID_FORMAT"⟩
  else .ok ()

/-- Acceptance predicate following the words of claim C2: after removing
any suffix from the first semicolon and trimming, the value begins with
`image/` or EQUALS `binary/octet-stream`. -/
def claimAccepts : Option JsString → Bool
  | none => false
  | some s =>
    jsStartsWith (mainContentType s) (jsStr "image/") ||
      (mainContentType s = jsStr "binary/octet-stream")

/-- Acceptance predicate the code actually implements: both branches are
`startsWith`, so any value beginning with `binary/octet-stream` passes. -/
def codeAccepts : Option JsString → Bool
  | none => false
  | some s =>
    jsStartsWith (mainContentType s) (jsStr "image/") ||
      jsStartsWith (mainContentType s) (jsStr "binary/octet-stream")

/-- Claim C2 counterexample: the content type `binary/octet-streamZZ` is
accepted by `validateContentType` although the claim, which demands exact
equality with `binary/octet-stream`, says it must be rejected. -/
theorem C2_binary_prefix_counterexample :
    validateContentType (some (jsStr "binary/octet-streamZZ")) = .ok () ∧
    claimAccepts (some (jsStr "binary/octet-streamZZ")) = false := by
  constructor
  · decide
  · decide

/-- Claim C2 as amended: the probe accepts a content type iff, after
stripping any `;` suffix and trimming, it BEGINS WITH `image/` or BEGINS
WITH `binary/octet-stream` (literal case comparison); every rejected
value, including an absent one, fails with status 400, kind
INVALID_FORMAT. -/
theorem C2_accepts_iff (contentType : Option JsString) :
    (validateContentType contentType = .ok () ↔ codeAccepts contentType = true) ∧
    (codeAccepts contentType = false →
      validateContentType contentType =
        .error ⟨jsStr "Invalid content type",
          jsStr "Origin does not serve image content. Content-Type: " ++
            ctOrUndefined contentType,
          400, jsStr "INVALID_FORMAT"⟩) := by
  cases contentType with
  | none =>
    refine ⟨?_, ?_⟩
    · constructor
      · intro h
        simp [validateContentType] at h
      · intro h
        simp [codeAccepts] at h
    · intro _
      rfl
  | some s =>
    cases ha : jsStartsWith (mainContentType s) (jsStr "image/") <;>
      cases hb : jsStartsWith (mainContentType s) (jsStr "binary/octet-stream") <;>
        simp [validateContentType, codeAccepts, ha, hb]

/-- Claim C2 witness: `image/jpeg` is accepted while its upper-case twin
`IMAGE/JPEG` is rejected with status 400, kind INVALID_FORMAT. -/
theorem C2_accepts_iff_witness :
    validateContentType (some (jsStr "image/jpeg")) = .ok () ∧
    validateContentType (some (jsStr "IMAGE/JPEG")) =
      .error ⟨jsStr "Invalid content type",
        jsStr "Origin does not serve image content. Content-Type: " ++
          ctOrUndefined (some (jsStr "IMAGE/JPEG")),
        400, jsStr "INVALID_FORMAT"⟩ :=
  ⟨(C2_accepts_iff (some (jsStr "image/jpeg"))).1.mpr (by decide),
   (C2_accepts_iff (some (jsStr "IMAGE/JPEG"))).2 (by decide)⟩

/-- Caller-owned request object: the fields of `ImageProcessingRequest`
this core reads or writes (`sourceImageContentType`; the
`timings.requestResolution` bucket modelled as a presence flag plus its
`preflightValidationMs` slot). -/
structure ImageProcessingRequest where
  sourceImageContentType : Option JsString
  timingsSlot : Bool
  preflightValidationMs : Option Nat
  deriving DecidableEq, Repr

/-- Failures the S3 HEAD path of the probe can observe: the fixed parse
error of `S3UrlHelper.parseS3Url`, or an SDK error carrying an optional
`$metadata.httpStatusCode` and a message. -/
inductive S3Failure where
  | parseError
  | sdkError (httpStatusCode : Option Nat) (message : JsString)
  deriving DecidableEq, Repr

/-- Failures the HTTP HEAD path of the probe can observe: an axios error
with optional response status and optional error code, or a non-axios
throw whose message is absent when the thrown value is not an `Error`. -/
inductive HttpFailure where
  | axiosErr (responseStatus : Option Nat) (code : Option JsString) (message : JsString)
  | otherErr (message : Option JsString)
  deriving DecidableEq, Repr

/-- Decimal rendering of a number inside a JS template literal. -/
def natToJs (n : Nat) : JsString := (toString n).data

/-- The catch-clause of `validateS3Origin`: parse failure, SDK status 404
and 403, and the 502 fallback. -/
def mapS3Failure (url : JsString) : S3Failure → ConnectionError
  | .parseError =>
    ⟨jsStr "Invalid S3 URL format", jsStr "Invalid S3 URL format: " ++ url,
      400, jsStr "INVALID_URL"⟩
  | .sdkError st msg =>
    if st = some 404 then
      ⟨jsStr "Resource not found", jsStr "S3 object not found: " ++ url,
        404, jsStr "RESOURCE_NOT_FOUND"⟩
    else if st = some 403 then
      ⟨jsStr "Access denied", jsStr "Access denied to S3 resource: " ++ url,
        403, jsStr "ACCESS_DENIED"⟩
    else
      ⟨jsStr "S3 validation failed",
        jsStr "S3 validation failed for " ++ url ++ jsStr ": " ++ msg,
        502, jsStr "BAD_GATEWAY"⟩

/-- The network-level error-code checks of `validateHttpOrigin` (lines
98–106), reached when no response-status branch fired. -/
def mapAxiosNetwork (url : JsString) (code : Option JsString) (msg : JsString) :
    ConnectionError :=
  if code = some (jsStr "ECONNABORTED") then
    ⟨jsStr "Origin timeout",
      jsStr "Origin validation timeout after 5000ms for URL: " ++ url,
      408, jsStr "REQUEST_TIMEOUT"⟩
  else if code = some (jsStr "ENOTFOUND") then
    ⟨jsStr "Unable to resolve host", jsStr "Unable to resolve host for " ++ url,
      404, jsStr "HOST_NOT_FOUND"⟩
  else if code = some (jsStr "CERT_UNTRUSTED") ∨
      code = some (jsStr "UNABLE_TO_VERIFY_LEAF_SIGNATURE") then
    ⟨jsStr "TLS certificate error",
      jsStr "TLS certificate validation failed for " ++ url ++ jsStr ": " ++ msg,
      403, jsStr "ACCESS_DENIED"⟩
  else
    ⟨jsStr "Origin validation failed",
      jsStr "Origin validation failed for " ++ url ++ jsStr ": " ++ msg,
      502, jsStr "BAD_GATEWAY"⟩

/-- The catch-clause of `validateHttpOrigin` for transport failures: the
response-status branches (404, 403/401, ≥500) fire first; any response
status they do not cover falls through to the network-level code checks,
as does an absent response; a non-axios throw reaches the 502 fallback
with `Unknown error` standing in for a missing message. -/
def mapHttpFailure (url : JsString) : HttpFailure → ConnectionError
  | .axiosErr respStatus code msg =>
    (match respStatus with
     | some status =>
       if status = 404 then
         ⟨jsStr "Resource not found", jsStr "Resource not found at " ++ url,
           404, jsStr "RESOURCE_NOT_FOUND"⟩
       else if status = 403 ∨ status = 401 then
         ⟨jsStr "Access denied", jsStr "Access denied for " ++ url,
           status, jsStr "ACCESS_DENIED"⟩
       else if 500 ≤ status then
         ⟨jsStr "Origin server error",
           jsStr "Origin server error (" ++ natToJs status ++ jsStr ") for " ++ url,
           502, jsStr "BAD_GATEWAY"⟩
       else mapAxiosNetwork url code msg
     | none => mapAxiosNetwork url code msg)
  | .otherErr m =>
    ⟨jsStr "Origin validation failed",
      jsStr "Origin validation failed for " ++ url ++ jsStr ": " ++
        (match m with | some s => s | none => jsStr "Unknown error"),
      502, jsStr "BAD_GATEWAY"⟩

/-- External collaborators of `ConnectionManager.validateOriginUrl`: the
URL validator, the S3 URL classifier, the two HEAD probes viewed as
oracles returning the declared content type or a failure, and the elapsed
wall time the timing slot would record. -/
structure ProbeEnv where
  urlValidate : JsString → Except JsString Unit
  isS3Url : JsString → Bool
  s3Head : JsString → Except S3Failure (Option JsString)
  httpHead : JsString → Except HttpFailure (Option JsString)
  elapsedMs : Nat

/-- `ConnectionManager.validateS3Origin`, with the request object passed
as explicit state: the content type is stored only after
`validateContentType` passes (already-typed `ConnectionError`s are
rethrown unchanged by the catch clause). -/
def validateS3Origin (s3Head : JsString → Except S3Failure (Option JsString))
    (url : JsString) (req : ImageProcessingRequest) :
    Except ConnectionError Unit × ImageProcessingRequest :=
  match s3Head url with
  | .error f => (.error (mapS3Failure url f), req)
  | .ok ct =>
    match validateContentType ct with
    | .error e => (.error e, req)
    | .ok () => (.ok (), { req with sourceImageContentType := ct })

/-- `ConnectionManager.validateHttpOrigin`, with the request object passed
as explicit state: same shape as the S3 path, with the axios failure
mapping. -/
def validateHttpOrigin (httpHead : JsString → Except HttpFailure (Option JsString))
    (url : JsString) (req : ImageProcessingRequest) :
    Except ConnectionError Unit × ImageProcessingRequest :=
  match httpHead url with
  | .error f => (.error (mapHttpFailure url f), req)
  | .ok ct =>
    match validateContentType ct with
    | .error e => (.error e, req)
    | .ok () => (.ok (), { req with sourceImageContentType := ct })

/-- `ConnectionManager.validateOriginHeaders`: dispatch on the S3 URL
classifier. -/
def validateOriginHeaders (env : ProbeEnv) (url : JsString)
    (req : ImageProcessingRequest) :
    Except ConnectionError Unit × ImageProcessingRequest :=
  if env.isS3Url url then validateS3Origin env.s3Head url req
  else validateHttpOrigin env.httpHead url req

/-- `ConnectionManager.validateOriginUrl`: the URL validator first (its
failure message chooses between UNSUPPORTED_PROTOCOL and INVALID_URL by
the substring `protocol`), then the probe, then — only on success and
only when the timing bucket pre-exists — the preflight timing write. -/
def validateOriginUrl (env : ProbeEnv) (url : JsString)
    (req : ImageProcessingRequest) :
    Except ConnectionError Unit × ImageProcessingRequest :=
  match env.urlValidate url with
  | .error message =>
    (.error ⟨jsStr "URL validation failed", message, 400,
      if jsIncludes (jsStr "protocol") message then jsStr "UNSUPPORTED_PROTOCOL"
      else jsStr "INVALID_URL"⟩, req)
  | .ok () =>
    match validateOriginHeaders env url req with
    | (.error e, req2) => (.error e, req2)
    | (.ok (), req2) =>
      if req2.timingsSlot then
        (.ok (), { req2 with preflightValidationMs := some env.elapsedMs })
      else (.ok (), req2)

/-- Claim C7: whenever the external URL validator fails,
`validateOriginUrl` fails with status 400, preserves the validator's
message, and picks kind UNSUPPORTED_PROTOCOL exactly when that message
contains the substring `protocol`, INVALID_URL otherwise; the request is
untouched. -/
theorem C7_url_validation_error (env : ProbeEnv) (url : JsString)
    (req : ImageProcessingRequest) (message : JsString)
    (h : env.urlValidate url = .error message) :
    validateOriginUrl env url req =
      (.error ⟨jsStr "URL validation failed", message, 400,
        if jsIncludes (jsStr "protocol") message then jsStr "UNSUPPORTED_PROTOCOL"
        else jsStr "INVALID_URL"⟩, req) := by
  simp [validateOriginUrl, h]

/-- Probe environment whose URL validator always fails with a message
mentioning `protocol`. -/
def envC7 : ProbeEnv :=
  { urlValidate := fun _ => .error (jsStr "Only HTTPS protocol is allowed")
    isS3Url := fun _ => false
    s3Head := fun _ => .error .parseError
    httpHead := fun _ => .error (.otherErr none)
    elapsedMs := 0 }

/-- Empty request used by the probe witnesses. -/
def reqEmpty : ImageProcessingRequest := ⟨none, true, none⟩

/-- Claim C7 witness: a validator message mentioning `protocol` yields
kind UNSUPPORTED_PROTOCOL with status 400 and the message preserved. -/
theorem C7_url_validation_error_witness :
    validateOriginUrl envC7 (jsStr "ftp://example.com/x") reqEmpty =
      (.error ⟨jsStr "URL validation failed", jsStr "Only HTTPS protocol is allowed",
        400,
        if jsIncludes (jsStr "protocol") (jsStr "Only HTTPS protocol is allowed") then
          jsStr "UNSUPPORTED_PROTOCOL"
        else jsStr "INVALID_URL"⟩, reqEmpty) ∧
    (if jsIncludes (jsStr "protocol") (jsStr "Only HTTPS protocol is allowed") then
        jsStr "UNSUPPORTED_PROTOCOL"
      else jsStr "INVALID_URL") = jsStr "UNSUPPORTED_PROTOCOL" :=
  ⟨C7_url_validation_error envC7 (jsStr "ftp://example.com/x") reqEmpty
      (jsStr "Only HTTPS protocol is allowed") rfl,
   by decide⟩

/-- Status and kind the claim assigns to each network-level error code of
a failing HTTP probe (deadline expiry, host resolution, certificate
trust, everything else). -/
def claimNetworkTable (code : Option JsString) : Nat × JsString :=
  if code = some (jsStr "ECONNABORTED") then (408, jsStr "REQUEST_TIMEOUT")
  else if code = some (jsStr "ENOTFOUND") then (404, jsStr "HOST_NOT_FOUND")
  else if code = some (jsStr "CERT_UNTRUSTED") ∨
      code = some (jsStr "UNABLE_TO_VERIFY_LEAF_SIGNATURE") then
    (403, jsStr "ACCESS_DENIED")
  else (502, jsStr "BAD_GATEWAY")

/-- Status and kind the claim assigns to each transport failure of a
failing HTTP probe: response 404 → 404 RESOURCE_NOT_FOUND, 403/401 → same
status ACCESS_DENIED, ≥500 → 502 BAD_GATEWAY, otherwise the network-code
table, and 502 BAD_GATEWAY for every remaining failure. -/
def claimHttpFailureTable : HttpFailure → Nat × JsString
  | .axiosErr (some status) code _ =>
    if status = 404 then (404, jsStr "RESOURCE_NOT_FOUND")
    else if status = 403 ∨ status = 401 then (status, jsStr "ACCESS_DENIED")
    else if 500 ≤ status then (502, jsStr "BAD_GATEWAY")
    else claimNetworkTable code
  | .axiosErr none code _ => claimNetworkTable code
  | .otherErr _ => (502, jsStr "BAD_GATEWAY")

theorem mapHttpFailure_status_code (url : JsString) (e : HttpFailure) :
    ((mapHttpFailure url e).status, (mapHttpFailure url e).code) =
      claimHttpFailureTable e := by
  cases e with
  | otherErr m => rfl
  | axiosErr respStatus code msg =>
    cases respStatus with
    | none =>
      simp only [mapHttpFailure, claimHttpFailureTable, mapAxiosNetwork,
        claimNetworkTable]
      split_ifs <;> rfl
    | some status =>
      simp only [mapHttpFailure, claimHttpFailureTable, mapAxiosNetwork,
        claimNetworkTable]
      split_ifs <;> rfl

/-- Claim C8: whenever the HTTP HEAD probe fails with a transport failure,
`validateOriginUrl` surfaces exactly the mapped `ConnectionError`, whose
status and kind follow the claimed table: response 404 → 404
RESOURCE_NOT_FOUND; 403 or 401 → that status, ACCESS_DENIED; ≥500 → 502
BAD_GATEWAY; deadline expiry (ECONNABORTED) → 408 REQUEST_TIMEOUT; host
resolution failure (ENOTFOUND) → 404 HOST_NOT_FOUND; certificate trust
failure → 403 ACCESS_DENIED; every other failure → 502 BAD_GATEWAY. -/
theorem C8_http_probe_failure_map (env : ProbeEnv) (url : JsString)
    (req : ImageProcessingRequest) (e : HttpFailure)
    (hS3 : env.isS3Url url = false)
    (hok : env.urlValidate url = .ok ())
    (h : env.httpHead url = .error e) :
    (validateOriginUrl env url req).1 = .error (mapHttpFailure url e) ∧
    ((mapHttpFailure url e).status, (mapHttpFailure url e).code) =
      claimHttpFailureTable e := by
  refine ⟨?_, mapHttpFailure_status_code url e⟩
  simp [validateOriginUrl, hok, validateOriginHeaders, hS3, validateHttpOrigin, h]

/-- Probe environment whose HTTP HEAD probe fails with a 404 response. -/
def envC8 : ProbeEnv :=
  { urlValidate := fun _ => .ok ()
    isS3Url := fun _ => false
    s3Head := fun _ => .error .parseError
    httpHead := fun _ =>
      .error (.axiosErr (some 404) none (jsStr "Request failed with status code 404"))
    elapsedMs := 0 }

/-- Claim C8 witness: a probe answered with response status 404 surfaces
the mapped error, whose status and kind are 404 RESOURCE_NOT_FOUND. -/
theorem C8_http_probe_failure_map_witness :
    (validateOriginUrl envC8 (jsStr "https://example.com/a") reqEmpty).1 =
      .error (mapHttpFailure (jsStr "https://example.com/a")
        (.axiosErr (some 404) none (jsStr "Request failed with status code 404"))) ∧
    ((mapHttpFailure (jsStr "https://example.com/a")
        (.axiosErr (some 404) none (jsStr "Request failed with status code 404"))).status,
      (mapHttpFailure (jsStr "https://example.com/a")
        (.axiosErr (some 404) none (jsStr "Request failed with status code 404"))).code) =
      claimHttpFailureTable
        (.axiosErr (some 404) none (jsStr "Request failed with status code 404")) :=
  C8_http_probe_failure_map envC8 (jsStr "https://example.com/a") reqEmpty
    (.axiosErr (some 404) none (jsStr "Request failed with status code 404"))
    rfl rfl rfl

theorem validateS3Origin_error_preserves
    (s3Head : JsString → Except S3Failure (Option JsString))
    (url : JsString) (req : ImageProcessingRequest) (e : ConnectionError)
    (h : (validateS3Origin s3Head url req).1 = .error e) :
    (validateS3Origin s3Head url req).2 = req := by
  unfold validateS3Origin at h ⊢
  cases hp : s3Head url with
  | error f => simp [hp]
  | ok ct =>
    simp only [hp] at h ⊢
    cases hv : validateContentType ct with
    | error e2 => simp [hv]
    | ok u =>
      cases u
      simp [hv] at h

theorem validateHttpOrigin_error_preserves
    (httpHead : JsString → Except HttpFailure (Option JsString))
    (url : JsString) (req : ImageProcessingRequest) (e : ConnectionError)
    (h : (validateHttpOrigin httpHead url req).1 = .error e) :
    (validateHttpOrigin httpHead url req).2 = req := by
  unfold validateHttpOrigin at h ⊢
  cases hp : httpHead url with
  | error f => simp [hp]
  | ok ct =>
    simp only [hp] at h ⊢
    cases hv : validateContentType ct with
    | error e2 => simp [hv]
    | ok u =>
      cases u
      simp [hv] at h

theorem validateOriginHeaders_error_preserves (env : ProbeEnv) (url : JsString)
    (req : ImageProcessingRequest) (e : ConnectionError)
    (h : (validateOriginHeaders env url req).1 = .error e) :
    (validateOriginHeaders env url req).2 = req := by
  unfold validateOriginHeaders at *
  by_cases hs : env.isS3Url url
  · rw [if_pos hs] at h ⊢
    exact validateS3Origin_error_preserves env.s3Head url req e h
  · rw [if_neg hs] at h ⊢
    exact validateHttpOrigin_error_preserves env.httpHead url req e h

/-- Claim C10: whenever `validateOriginUrl` fails — URL validation, parse,
probe, or content-type rejection — the caller's request object is
returned exactly as it came in: the content-type field keeps its prior
value and the preflight timing slot is not written even when it was
pre-initialized; mutation happens only on full success. -/
theorem C10_no_mutation_on_failure (env : ProbeEnv) (url : JsString)
    (req : ImageProcessingRequest) (e : ConnectionError)
    (h : (validateOriginUrl env url req).1 = .error e) :
    (validateOriginUrl env url req).2 = req := by
  unfold validateOriginUrl at h ⊢
  cases hv : env.urlValidate url with
  | error m => simp [hv]
  | ok u =>
    cases u
    simp only [hv] at h ⊢
    cases hh : validateOriginHeaders env url req with
    | mk fst req2 =>
      cases fst with
      | error e2 =>
        have h2 : (validateOriginHeaders env url req).2 = req :=
          validateOriginHeaders_error_preserves env url req e2 (by rw [hh])
        rw [hh] at h2
        simp only [hh]
        simpa using h2
      | ok u2 =>
        cases u2
        simp only [hh] at h
        by_cases ht : req2.timingsSlot <;> simp [ht] at h

/-- Probe environment whose HTTP HEAD probe succeeds with a non-image
content type, so the probe fails at the acceptance check after the
network round trip. -/
def envC10 : ProbeEnv :=
  { urlValidate := fun _ => .ok ()
    isS3Url := fun _ => false
    s3Head := fun _ => .error .parseError
    httpHead := fun _ => .ok (some (jsStr "text/html"))
    elapsedMs := 42 }

/-- Request with a prior content type and a pre-initialized timing slot,
to make the no-mutation conclusion observable. -/
def reqC10 : ImageProcessingRequest := ⟨some (jsStr "image/png"), true, none⟩

/-- Claim C10 witness: a content-type rejection after a successful probe
leaves the request untouched — the prior content type survives and the
pre-initialized timing slot is not written. -/
theorem C10_no_mutation_on_failure_witness :
    (validateOriginUrl envC10 (jsStr "https://example.com/page") reqC10).2 = reqC10 :=
  C10_no_mutation_on_failure envC10 (jsStr "https://example.com/page") reqC10
    ⟨jsStr "Invalid content type",
      jsStr "Origin does not serve image content. Content-Type: " ++ jsStr "text/html",
      400, jsStr "INVALID_FORMAT"⟩ (by decide)
